import Mathlib

/-!
Verification development for the `mss` client library (the-grid repository):
the IPC session and command protocol of a window-management scripting-addition
client.  The repository's `src/` tree contains the public headers
`mss/mss.h` and `mss/mss_types.h`; the implementation translation unit
(`client.m`, named by the headers) is not present, so the operational
definitions below are modelled from the specification's description of the
wire codec, transport, session, and command facade, while the constants,
enumerations and function signatures are taken directly from the headers.
-/

namespace MSS

/-! ### Constants from `src/grid-server/include/mss/mss_types.h` -/

/-- Capability flag `MSS_CAP_DOCK_SPACES` (mss_types.h line 44). -/
def MSS_CAP_DOCK_SPACES : Nat := 0x01

/-- Capability flag `MSS_CAP_DPPM` (mss_types.h line 45). -/
def MSS_CAP_DPPM : Nat := 0x02

/-- Capability flag `MSS_CAP_ADD_SPACE` (mss_types.h line 46). -/
def MSS_CAP_ADD_SPACE : Nat := 0x04

/-- Capability flag `MSS_CAP_REM_SPACE` (mss_types.h line 47). -/
def MSS_CAP_REM_SPACE : Nat := 0x08

/-- Capability flag `MSS_CAP_MOV_SPACE` (mss_types.h line 48). -/
def MSS_CAP_MOV_SPACE : Nat := 0x10

/-- Capability flag `MSS_CAP_SET_WINDOW` (mss_types.h line 49). -/
def MSS_CAP_SET_WINDOW : Nat := 0x20

/-- Capability flag `MSS_CAP_ANIM_TIME` (mss_types.h line 50). -/
def MSS_CAP_ANIM_TIME : Nat := 0x40

/-- Capability mask `MSS_CAP_ALL` (mss_types.h line 51). -/
def MSS_CAP_ALL : Nat := 0x7F

/-- The seven individual capability flags, in header order. -/
def capFlags : List Nat :=
  [MSS_CAP_DOCK_SPACES, MSS_CAP_DPPM, MSS_CAP_ADD_SPACE, MSS_CAP_REM_SPACE,
   MSS_CAP_MOV_SPACE, MSS_CAP_SET_WINDOW, MSS_CAP_ANIM_TIME]

/-- Error codes of `enum mss_error` (mss_types.h lines 31-41). -/
inductive mss_error where
  | MSS_SUCCESS
  | MSS_ERROR_INIT
  | MSS_ERROR_ROOT
  | MSS_ERROR_CONNECTION
  | MSS_ERROR_INSTALL
  | MSS_ERROR_LOAD
  | MSS_ERROR_NOT_LOADED
  | MSS_ERROR_OPERATION
  | MSS_ERROR_INVALID_ARG
  deriving DecidableEq, Repr

/-- Numeric values of `enum mss_error` (mss_types.h lines 31-41). -/
def mss_error.code : mss_error → Int
  | .MSS_SUCCESS => 0
  | .MSS_ERROR_INIT => -1
  | .MSS_ERROR_ROOT => -2
  | .MSS_ERROR_CONNECTION => -3
  | .MSS_ERROR_INSTALL => -4
  | .MSS_ERROR_LOAD => -5
  | .MSS_ERROR_NOT_LOADED => -6
  | .MSS_ERROR_OPERATION => -7
  | .MSS_ERROR_INVALID_ARG => -8

/-- Window layer levels of `enum mss_window_layer` (mss_types.h lines 17-21). -/
inductive mss_window_layer where
  | MSS_LAYER_BELOW
  | MSS_LAYER_NORMAL
  | MSS_LAYER_ABOVE
  deriving DecidableEq, Repr

/-- Numeric values of `enum mss_window_layer` (mss_types.h lines 17-21). -/
def mss_window_layer.code : mss_window_layer → Nat
  | .MSS_LAYER_BELOW => 3
  | .MSS_LAYER_NORMAL => 4
  | .MSS_LAYER_ABOVE => 5

/-- Window order modes of `enum mss_window_order` (mss_types.h lines 24-28). -/
inductive mss_window_order where
  | MSS_ORDER_OUT
  | MSS_ORDER_ABOVE
  | MSS_ORDER_BELOW
  deriving DecidableEq, Repr

/-- Numeric values of `enum mss_window_order` (mss_types.h lines 24-28). -/
def mss_window_order.code : mss_window_order → Int
  | .MSS_ORDER_OUT => 0
  | .MSS_ORDER_ABOVE => 1
  | .MSS_ORDER_BELOW => -1

/-- A bitmask `m` contains flag `c` when every bit of `c` is set in `m`. -/
def hasCap (m c : Nat) : Prop := m &&& c = c

theorem hasCap_pow (m i : Nat) : hasCap m (2 ^ i) ↔ m / 2 ^ i % 2 = 1 := by
  unfold hasCap
  rw [Nat.and_two_pow, Nat.testBit_to_div_mod]
  by_cases h : m / 2 ^ i % 2 = 1 <;> simp [h]
  exact (Nat.two_pow_pos i).ne

set_option maxHeartbeats 1000000 in
/-- C10: `MSS_CAP_ALL` (0x7F) is the bitwise OR of exactly the seven individual
capability flags, which are pairwise-disjoint single-bit masks, and a bitmask
satisfies `mask &&& MSS_CAP_ALL = MSS_CAP_ALL` iff it contains all seven flags. -/
theorem cap_all_spec :
    MSS_CAP_ALL = capFlags.foldr (· ||| ·) 0 ∧
    (∀ c ∈ capFlags, ∃ i, c = 2 ^ i) ∧
    capFlags.Pairwise (fun a b => a &&& b = 0) ∧
    (∀ mask : Nat, hasCap mask MSS_CAP_ALL ↔ ∀ c ∈ capFlags, hasCap mask c) := by
  refine ⟨by decide, ?_, by decide, ?_⟩
  · intro c hc
    simp only [capFlags, List.mem_cons, List.not_mem_nil, or_false] at hc
    rcases hc with rfl | rfl | rfl | rfl | rfl | rfl | rfl
    exacts [⟨0, by decide⟩, ⟨1, by decide⟩, ⟨2, by decide⟩, ⟨3, by decide⟩,
            ⟨4, by decide⟩, ⟨5, by decide⟩, ⟨6, by decide⟩]
  · intro mask
    have hall : mask &&& 127 = mask % 128 := by
      have := Nat.and_pow_two_sub_one_eq_mod mask 7
      norm_num at this; exact this
    constructor
    · intro h c hc
      have hm : mask % 128 = 127 := by
        unfold hasCap MSS_CAP_ALL at h; rw [hall] at h; exact h
      simp only [capFlags, List.mem_cons, List.not_mem_nil, or_false] at hc
      rcases hc with rfl | rfl | rfl | rfl | rfl | rfl | rfl
      · exact (hasCap_pow mask 0).mpr (by omega)
      · exact (hasCap_pow mask 1).mpr (by omega)
      · exact (hasCap_pow mask 2).mpr (by omega)
      · exact (hasCap_pow mask 3).mpr (by omega)
      · exact (hasCap_pow mask 4).mpr (by omega)
      · exact (hasCap_pow mask 5).mpr (by omega)
      · exact (hasCap_pow mask 6).mpr (by omega)
    · intro h
      have h0 := (hasCap_pow mask 0).mp (h MSS_CAP_DOCK_SPACES (by decide))
      have h1 := (hasCap_pow mask 1).mp (h MSS_CAP_DPPM (by decide))
      have h2 := (hasCap_pow mask 2).mp (h MSS_CAP_ADD_SPACE (by decide))
      have h3 := (hasCap_pow mask 3).mp (h MSS_CAP_REM_SPACE (by decide))
      have h4 := (hasCap_pow mask 4).mp (h MSS_CAP_MOV_SPACE (by decide))
      have h5 := (hasCap_pow mask 5).mp (h MSS_CAP_SET_WINDOW (by decide))
      have h6 := (hasCap_pow mask 6).mp (h MSS_CAP_ANIM_TIME (by decide))
      show mask &&& 127 = 127
      rw [hall]
      omega

/-! ### Wire codec

Modelled from the spec: the wire-codec translation unit is not present under
`src/` (the headers name `client.m`, which is missing), so the codec below
follows spec section 4.1: length-prefixed frames `tag, payload-length,
payload`, fixed-width little-endian numeric fields, 32-bit float fields
carried by their bit pattern, variable-length id lists encoded as
`count, id[0], ..., id[count-1]` with `count` validated against an upper
bound, and decode failure (truncated payload, length mismatch, unknown tag,
unknown enum value) reported as `none` (`PROTOCOL_CORRUPT`). -/

/-- Modelled from the spec: upper bound on id-list length accepted by the
codec (spec section 4.1 requires such a bound; no concrete value is given). -/
def MSS_MAX_LIST : Nat := 256

/-- Little-endian 4-byte encoding of the low 32 bits of `n`. -/
def putU32 (n : Nat) : List Nat :=
  [n % 256, n / 256 % 256, n / 65536 % 256, n / 16777216 % 256]

/-- Little-endian 8-byte encoding of the low 64 bits of `n`. -/
def putU64 (n : Nat) : List Nat :=
  putU32 (n % 4294967296) ++ putU32 (n / 4294967296 % 4294967296)

/-- Two's-complement 4-byte encoding of a signed 32-bit value. -/
def putI32 (i : Int) : List Nat := putU32 ((i % 4294967296).toNat)

/-- One-byte encoding of a boolean. -/
def putBool (b : Bool) : List Nat := [if b then 1 else 0]

/-- Concatenated 4-byte encodings of a list of ids. -/
def putU32s : List Nat → List Nat
  | [] => []
  | x :: xs => putU32 x ++ putU32s xs

/-- Concatenated window/proxy id pairs (struct mss_window_animation). -/
def putAnims : List (Nat × Nat) → List Nat
  | [] => []
  | (w, p) :: xs => putU32 w ++ putU32 p ++ putAnims xs

/-- Read a little-endian 32-bit value; fails on fewer than 4 bytes. -/
def rdU32 : List Nat → Option (Nat × List Nat)
  | a :: b :: c :: d :: rest => some (a + 256 * b + 65536 * c + 16777216 * d, rest)
  | _ => none

/-- Read a little-endian 64-bit value; fails on fewer than 8 bytes. -/
def rdU64 (bs : List Nat) : Option (Nat × List Nat) := do
  let (lo, r1) ← rdU32 bs
  let (hi, r2) ← rdU32 r1
  pure (lo + 4294967296 * hi, r2)

/-- Signed interpretation of a 32-bit pattern. -/
def i32OfU32 (n : Nat) : Int :=
  if n < 2147483648 then (n : Int) else (n : Int) - 4294967296

/-- Read a two's-complement 32-bit value. -/
def rdI32 (bs : List Nat) : Option (Int × List Nat) := do
  let (n, r) ← rdU32 bs
  pure (i32OfU32 n, r)

/-- Read a boolean byte; any value other than 0 or 1 is corrupt. -/
def rdBool : List Nat → Option (Bool × List Nat)
  | 0 :: rest => some (false, rest)
  | 1 :: rest => some (true, rest)
  | _ => none

/-- Read `n` consecutive 32-bit ids. -/
def rdU32s : Nat → List Nat → Option (List Nat × List Nat)
  | 0, bs => some ([], bs)
  | n + 1, bs => do
      let (x, r1) ← rdU32 bs
      let (xs, r2) ← rdU32s n r1
      pure (x :: xs, r2)

/-- Read `n` consecutive window/proxy id pairs. -/
def rdAnims : Nat → List Nat → Option (List (Nat × Nat) × List Nat)
  | 0, bs => some ([], bs)
  | n + 1, bs => do
      let (w, r1) ← rdU32 bs
      let (p, r2) ← rdU32 r1
      let (xs, r3) ← rdAnims n r2
      pure ((w, p) :: xs, r3)

/-- Read a window-layer enum value; unknown wire values are corrupt. -/
def rdLayer (bs : List Nat) : Option (mss_window_layer × List Nat) := do
  let (n, r) ← rdU32 bs
  match n with
  | 3 => pure (.MSS_LAYER_BELOW, r)
  | 4 => pure (.MSS_LAYER_NORMAL, r)
  | 5 => pure (.MSS_LAYER_ABOVE, r)
  | _ => none

/-- Read a window-order enum value; unknown wire values are corrupt. -/
def rdOrder (bs : List Nat) : Option (mss_window_order × List Nat) := do
  let (i, r) ← rdI32 bs
  if i = 0 then pure (.MSS_ORDER_OUT, r)
  else if i = 1 then pure (.MSS_ORDER_ABOVE, r)
  else if i = -1 then pure (.MSS_ORDER_BELOW, r)
  else none

/-- Modelled from the spec: the tagged Command value (spec section 3), one
kind per public operation of `mss.h`.  Float-typed fields (opacity, fade
duration, scale coordinates) are carried as their 32-bit pattern, exactly as
they cross the wire. -/
inductive Command where
  | spaceCreate (sid : Nat)
  | spaceDestroy (sid : Nat)
  | spaceFocus (sid : Nat)
  | spaceMove (srcSid dstSid srcPrevSid : Nat) (focus : Bool)
  | windowMove (wid : Nat) (x y : Int)
  | windowSetOpacity (wid : Nat) (opacity : Nat)
  | windowFadeOpacity (wid : Nat) (opacity duration : Nat)
  | windowSetLayer (wid : Nat) (layer : mss_window_layer)
  | windowSetSticky (wid : Nat) (sticky : Bool)
  | windowSetShadow (wid : Nat) (shadow : Bool)
  | windowFocus (wid : Nat)
  | windowScale (wid : Nat) (x y w h : Nat)
  | windowOrder (wid : Nat) (ord : mss_window_order) (relativeWid : Nat)
  | windowOrderIn (windowList : List Nat)
  | windowMoveToSpace (wid sid : Nat)
  | windowListMoveToSpace (windowList : List Nat) (sid : Nat)
  | windowResize (wid : Nat) (width height : Int)
  | windowSetFrame (wid : Nat) (x y width height : Int)
  | windowMinimize (wid : Nat)
  | windowUnminimize (wid : Nat)
  | windowIsMinimized (wid : Nat)
  | windowGetOpacity (wid : Nat)
  | windowGetFrame (wid : Nat)
  | windowIsSticky (wid : Nat)
  | windowGetLayer (wid : Nat)
  | windowSwapProxyIn (animations : List (Nat × Nat))
  | windowSwapProxyOut (animations : List (Nat × Nat))
  | displayGetCount
  | displayGetList
  deriving DecidableEq, Repr

/-- Wire tag of each Command kind. -/
def Command.tag : Command → Nat
  | .spaceCreate _ => 1
  | .spaceDestroy _ => 2
  | .spaceFocus _ => 3
  | .spaceMove _ _ _ _ => 4
  | .windowMove _ _ _ => 5
  | .windowSetOpacity _ _ => 6
  | .windowFadeOpacity _ _ _ => 7
  | .windowSetLayer _ _ => 8
  | .windowSetSticky _ _ => 9
  | .windowSetShadow _ _ => 10
  | .windowFocus _ => 11
  | .windowScale _ _ _ _ _ => 12
  | .windowOrder _ _ _ => 13
  | .windowOrderIn _ => 14
  | .windowMoveToSpace _ _ => 15
  | .windowListMoveToSpace _ _ => 16
  | .windowResize _ _ _ => 17
  | .windowSetFrame _ _ _ _ _ => 18
  | .windowMinimize _ => 19
  | .windowUnminimize _ => 20
  | .windowIsMinimized _ => 21
  | .windowGetOpacity _ => 22
  | .windowGetFrame _ => 23
  | .windowIsSticky _ => 24
  | .windowGetLayer _ => 25
  | .windowSwapProxyIn _ => 26
  | .windowSwapProxyOut _ => 27
  | .displayGetCount => 28
  | .displayGetList => 29

/-- Payload bytes of each Command kind: explicit field-by-field encoding,
never a raw memory copy (spec section 4.1). -/
def Command.payload : Command → List Nat
  | .spaceCreate sid => putU64 sid
  | .spaceDestroy sid => putU64 sid
  | .spaceFocus sid => putU64 sid
  | .spaceMove src dst prev focus =>
      putU64 src ++ putU64 dst ++ putU64 prev ++ putBool focus
  | .windowMove wid x y => putU32 wid ++ putI32 x ++ putI32 y
  | .windowSetOpacity wid opacity => putU32 wid ++ putU32 opacity
  | .windowFadeOpacity wid opacity duration =>
      putU32 wid ++ putU32 opacity ++ putU32 duration
  | .windowSetLayer wid layer => putU32 wid ++ putU32 layer.code
  | .windowSetSticky wid sticky => putU32 wid ++ putBool sticky
  | .windowSetShadow wid shadow => putU32 wid ++ putBool shadow
  | .windowFocus wid => putU32 wid
  | .windowScale wid x y w h =>
      putU32 wid ++ putU32 x ++ putU32 y ++ putU32 w ++ putU32 h
  | .windowOrder wid ord rel => putU32 wid ++ putI32 ord.code ++ putU32 rel
  | .windowOrderIn l => putU32 l.length ++ putU32s l
  | .windowMoveToSpace wid sid => putU32 wid ++ putU64 sid
  | .windowListMoveToSpace l sid => putU32 l.length ++ putU32s l ++ putU64 sid
  | .windowResize wid w h => putU32 wid ++ putI32 w ++ putI32 h
  | .windowSetFrame wid x y w h =>
      putU32 wid ++ putI32 x ++ putI32 y ++ putI32 w ++ putI32 h
  | .windowMinimize wid => putU32 wid
  | .windowUnminimize wid => putU32 wid
  | .windowIsMinimized wid => putU32 wid
  | .windowGetOpacity wid => putU32 wid
  | .windowGetFrame wid => putU32 wid
  | .windowIsSticky wid => putU32 wid
  | .windowGetLayer wid => putU32 wid
  | .windowSwapProxyIn anims => putU32 anims.length ++ putAnims anims
  | .windowSwapProxyOut anims => putU32 anims.length ++ putAnims anims
  | .displayGetCount => []
  | .displayGetList => []

/-- Field domains of a Command: unsigned fields within their wire width,
signed fields within the 32-bit two's-complement range, id lists within the
codec bound with 32-bit elements. -/
def Command.wf : Command → Prop
  | .spaceCreate sid => sid < 2 ^ 64
  | .spaceDestroy sid => sid < 2 ^ 64
  | .spaceFocus sid => sid < 2 ^ 64
  | .spaceMove src dst prev _ => src < 2 ^ 64 ∧ dst < 2 ^ 64 ∧ prev < 2 ^ 64
  | .windowMove wid x y =>
      wid < 2 ^ 32 ∧ -2147483648 ≤ x ∧ x < 2147483648 ∧
        -2147483648 ≤ y ∧ y < 2147483648
  | .windowSetOpacity wid opacity => wid < 2 ^ 32 ∧ opacity < 2 ^ 32
  | .windowFadeOpacity wid opacity duration =>
      wid < 2 ^ 32 ∧ opacity < 2 ^ 32 ∧ duration < 2 ^ 32
  | .windowSetLayer wid _ => wid < 2 ^ 32
  | .windowSetSticky wid _ => wid < 2 ^ 32
  | .windowSetShadow wid _ => wid < 2 ^ 32
  | .windowFocus wid => wid < 2 ^ 32
  | .windowScale wid x y w h =>
      wid < 2 ^ 32 ∧ x < 2 ^ 32 ∧ y < 2 ^ 32 ∧ w < 2 ^ 32 ∧ h < 2 ^ 32
  | .windowOrder wid _ rel => wid < 2 ^ 32 ∧ rel < 2 ^ 32
  | .windowOrderIn l => l.length ≤ MSS_MAX_LIST ∧ ∀ x ∈ l, x < 2 ^ 32
  | .windowMoveToSpace wid sid => wid < 2 ^ 32 ∧ sid < 2 ^ 64
  | .windowListMoveToSpace l sid =>
      l.length ≤ MSS_MAX_LIST ∧ (∀ x ∈ l, x < 2 ^ 32) ∧ sid < 2 ^ 64
  | .windowResize wid w h =>
      wid < 2 ^ 32 ∧ -2147483648 ≤ w ∧ w < 2147483648 ∧
        -2147483648 ≤ h ∧ h < 2147483648
  | .windowSetFrame wid x y w h =>
      wid < 2 ^ 32 ∧ -2147483648 ≤ x ∧ x < 2147483648 ∧
        -2147483648 ≤ y ∧ y < 2147483648 ∧ -2147483648 ≤ w ∧ w < 2147483648 ∧
        -2147483648 ≤ h ∧ h < 2147483648
  | .windowMinimize wid => wid < 2 ^ 32
  | .windowUnminimize wid => wid < 2 ^ 32
  | .windowIsMinimized wid => wid < 2 ^ 32
  | .windowGetOpacity wid => wid < 2 ^ 32
  | .windowGetFrame wid => wid < 2 ^ 32
  | .windowIsSticky wid => wid < 2 ^ 32
  | .windowGetLayer wid => wid < 2 ^ 32
  | .windowSwapProxyIn anims =>
      anims.length ≤ MSS_MAX_LIST ∧ ∀ a ∈ anims, a.1 < 2 ^ 32 ∧ a.2 < 2 ^ 32
  | .windowSwapProxyOut anims =>
      anims.length ≤ MSS_MAX_LIST ∧ ∀ a ∈ anims, a.1 < 2 ^ 32 ∧ a.2 < 2 ^ 32
  | .displayGetCount => True
  | .displayGetList => True

instance : DecidablePred Command.wf := by
  intro c
  unfold Command.wf
  cases c <;> infer_instance

/-- Frame encoding of a Command: tag byte, 4-byte payload length, payload
(spec section 4.1, length-prefixed framing). -/
def encodeCommand (c : Command) : List Nat :=
  c.tag :: putU32 c.payload.length ++ c.payload

/-- Closing step of a payload decode: any leftover bytes are a length
mismatch, hence corrupt. -/
def endOf (r : List Nat) (c : Command) : Option Command :=
  match r with
  | [] => some c
  | _ => none

/-- Payload decode keyed by the frame tag (spec section 4.1); unknown tags
are corrupt. -/
def decodeBody (t : Nat) (b : List Nat) : Option Command :=
  match t with
  | 1 => do let (sid, r) ← rdU64 b; endOf r (.spaceCreate sid)
  | 2 => do let (sid, r) ← rdU64 b; endOf r (.spaceDestroy sid)
  | 3 => do let (sid, r) ← rdU64 b; endOf r (.spaceFocus sid)
  | 4 => do
      let (src, r1) ← rdU64 b
      let (dst, r2) ← rdU64 r1
      let (prev, r3) ← rdU64 r2
      let (focus, r4) ← rdBool r3
      endOf r4 (.spaceMove src dst prev focus)
  | 5 => do
      let (wid, r1) ← rdU32 b
      let (x, r2) ← rdI32 r1
      let (y, r3) ← rdI32 r2
      endOf r3 (.windowMove wid x y)
  | 6 => do
      let (wid, r1) ← rdU32 b
      let (opacity, r2) ← rdU32 r1
      endOf r2 (.windowSetOpacity wid opacity)
  | 7 => do
      let (wid, r1) ← rdU32 b
      let (opacity, r2) ← rdU32 r1
      let (duration, r3) ← rdU32 r2
      endOf r3 (.windowFadeOpacity wid opacity duration)
  | 8 => do
      let (wid, r1) ← rdU32 b
      let (layer, r2) ← rdLayer r1
      endOf r2 (.windowSetLayer wid layer)
  | 9 => do
      let (wid, r1) ← rdU32 b
      let (sticky, r2) ← rdBool r1
      endOf r2 (.windowSetSticky wid sticky)
  | 10 => do
      let (wid, r1) ← rdU32 b
      let (shadow, r2) ← rdBool r1
      endOf r2 (.windowSetShadow wid shadow)
  | 11 => do let (wid, r) ← rdU32 b; endOf r (.windowFocus wid)
  | 12 => do
      let (wid, r1) ← rdU32 b
      let (x, r2) ← rdU32 r1
      let (y, r3) ← rdU32 r2
      let (w, r4) ← rdU32 r3
      let (h, r5) ← rdU32 r4
      endOf r5 (.windowScale wid x y w h)
  | 13 => do
      let (wid, r1) ← rdU32 b
      let (ord, r2) ← rdOrder r1
      let (rel, r3) ← rdU32 r2
      endOf r3 (.windowOrder wid ord rel)
  | 14 => do
      let (count, r1) ← rdU32 b
      if count ≤ MSS_MAX_LIST then
        do
          let (l, r2) ← rdU32s count r1
          endOf r2 (.windowOrderIn l)
      else none
  | 15 => do
      let (wid, r1) ← rdU32 b
      let (sid, r2) ← rdU64 r1
      endOf r2 (.windowMoveToSpace wid sid)
  | 16 => do
      let (count, r1) ← rdU32 b
      if count ≤ MSS_MAX_LIST then
        do
          let (l, r2) ← rdU32s count r1
          let (sid, r3) ← rdU64 r2
          endOf r3 (.windowListMoveToSpace l sid)
      else none
  | 17 => do
      let (wid, r1) ← rdU32 b
      let (w, r2) ← rdI32 r1
      let (h, r3) ← rdI32 r2
      endOf r3 (.windowResize wid w h)
  | 18 => do
      let (wid, r1) ← rdU32 b
      let (x, r2) ← rdI32 r1
      let (y, r3) ← rdI32 r2
      let (w, r4) ← rdI32 r3
      let (h, r5) ← rdI32 r4
      endOf r5 (.windowSetFrame wid x y w h)
  | 19 => do let (wid, r) ← rdU32 b; endOf r (.windowMinimize wid)
  | 20 => do let (wid, r) ← rdU32 b; endOf r (.windowUnminimize wid)
  | 21 => do let (wid, r) ← rdU32 b; endOf r (.windowIsMinimized wid)
  | 22 => do let (wid, r) ← rdU32 b; endOf r (.windowGetOpacity wid)
  | 23 => do let (wid, r) ← rdU32 b; endOf r (.windowGetFrame wid)
  | 24 => do let (wid, r) ← rdU32 b; endOf r (.windowIsSticky wid)
  | 25 => do let (wid, r) ← rdU32 b; endOf r (.windowGetLayer wid)
  | 26 => do
      let (count, r1) ← rdU32 b
      if count ≤ MSS_MAX_LIST then
        do
          let (anims, r2) ← rdAnims count r1
          endOf r2 (.windowSwapProxyIn anims)
      else none
  | 27 => do
      let (count, r1) ← rdU32 b
      if count ≤ MSS_MAX_LIST then
        do
          let (anims, r2) ← rdAnims count r1
          endOf r2 (.windowSwapProxyOut anims)
      else none
  | 28 => endOf b .displayGetCount
  | 29 => endOf b .displayGetList
  | _ => none

/-- Frame decode: read the tag byte and the declared payload length, demand
exactly that many payload bytes, then decode the payload (spec section 4.1).
Total on arbitrary byte sequences; every failure is `none`
(`PROTOCOL_CORRUPT`). -/
def decodeCommand (bs : List Nat) : Option Command :=
  match bs with
  | [] => none
  | t :: rest => do
      let (len, body) ← rdU32 rest
      if body.length = len then decodeBody t body else none

/-! ### Codec lemmas -/

theorem rdU32_putU32 (n : Nat) (r : List Nat) :
    rdU32 (putU32 n ++ r) = some (n % 4294967296, r) := by
  simp only [putU32, rdU32, List.cons_append, List.nil_append,
    Option.some.injEq, Prod.mk.injEq, and_true]
  omega

theorem rdU32_putU32_of_lt {n : Nat} (h : n < 4294967296) (r : List Nat) :
    rdU32 (putU32 n ++ r) = some (n, r) := by
  rw [rdU32_putU32, Nat.mod_eq_of_lt h]

theorem rdU64_putU64_of_lt {n : Nat} (h : n < 18446744073709551616)
    (r : List Nat) : rdU64 (putU64 n ++ r) = some (n, r) := by
  have h1 : n % 4294967296 < 4294967296 := Nat.mod_lt _ (by norm_num)
  have h2 : n / 4294967296 % 4294967296 < 4294967296 := Nat.mod_lt _ (by norm_num)
  simp only [rdU64, putU64, List.append_assoc, rdU32_putU32_of_lt h1,
    rdU32_putU32_of_lt h2, Option.bind_eq_bind, Option.some_bind]
  simp only [Option.pure_def, Option.some.injEq, Prod.mk.injEq, and_true]
  omega

theorem rdI32_putI32_of_bounds {i : Int} (hlo : -2147483648 ≤ i)
    (hhi : i < 2147483648) (r : List Nat) :
    rdI32 (putI32 i ++ r) = some (i, r) := by
  have hb : (i % 4294967296).toNat < 4294967296 := by omega
  simp only [rdI32, putI32, rdU32_putU32_of_lt hb, Option.bind_eq_bind,
    Option.some_bind, Option.pure_def, Option.some.injEq, Prod.mk.injEq, and_true]
  unfold i32OfU32
  split <;> omega

theorem rdBool_putBool (b : Bool) (r : List Nat) :
    rdBool (putBool b ++ r) = some (b, r) := by
  cases b <;> rfl

theorem rdU32s_putU32s {l : List Nat} (h : ∀ x ∈ l, x < 4294967296)
    (r : List Nat) : rdU32s l.length (putU32s l ++ r) = some (l, r) := by
  induction l with
  | nil => rfl
  | cons x xs ih =>
    have hx : x < 4294967296 := h x (by simp)
    simp only [List.length_cons, rdU32s, putU32s, List.append_assoc,
      rdU32_putU32_of_lt hx, Option.bind_eq_bind, Option.some_bind,
      ih (fun y hy => h y (by simp [hy])), Option.pure_def]

theorem rdAnims_putAnims {l : List (Nat × Nat)}
    (h : ∀ a ∈ l, a.1 < 4294967296 ∧ a.2 < 4294967296) (r : List Nat) :
    rdAnims l.length (putAnims l ++ r) = some (l, r) := by
  induction l with
  | nil => rfl
  | cons a xs ih =>
    obtain ⟨w, p⟩ := a
    have hw : w < 4294967296 := (h (w, p) (by simp)).1
    have hp : p < 4294967296 := (h (w, p) (by simp)).2
    simp only [List.length_cons, rdAnims, putAnims, List.append_assoc,
      rdU32_putU32_of_lt hw, rdU32_putU32_of_lt hp, Option.bind_eq_bind,
      Option.some_bind, ih (fun y hy => h y (by simp [hy])), Option.pure_def]

theorem rdLayer_put (l : mss_window_layer) (r : List Nat) :
    rdLayer (putU32 l.code ++ r) = some (l, r) := by
  cases l <;>
    simp [rdLayer, mss_window_layer.code,
      rdU32_putU32_of_lt (by norm_num : (3 : Nat) < 4294967296),
      rdU32_putU32_of_lt (by norm_num : (4 : Nat) < 4294967296),
      rdU32_putU32_of_lt (by norm_num : (5 : Nat) < 4294967296)]

theorem rdOrder_put (o : mss_window_order) (r : List Nat) :
    rdOrder (putI32 o.code ++ r) = some (o, r) := by
  cases o
  · simp [rdOrder, mss_window_order.code,
      @rdI32_putI32_of_bounds 0 (by norm_num) (by norm_num) r]
  · simp [rdOrder, mss_window_order.code,
      @rdI32_putI32_of_bounds 1 (by norm_num) (by norm_num) r]
  · simp [rdOrder, mss_window_order.code,
      @rdI32_putI32_of_bounds (-1) (by norm_num) (by norm_num) r]

theorem rdU32_putU32_nil {n : Nat} (h : n < 4294967296) :
    rdU32 (putU32 n) = some (n, []) := by
  simpa using rdU32_putU32_of_lt h []

theorem rdU64_putU64_nil {n : Nat} (h : n < 18446744073709551616) :
    rdU64 (putU64 n) = some (n, []) := by
  simpa using rdU64_putU64_of_lt h []

theorem rdI32_putI32_nil {i : Int} (hlo : -2147483648 ≤ i)
    (hhi : i < 2147483648) : rdI32 (putI32 i) = some (i, []) := by
  simpa using rdI32_putI32_of_bounds hlo hhi []

theorem rdBool_putBool_nil (b : Bool) : rdBool (putBool b) = some (b, []) := by
  simpa using rdBool_putBool b []

theorem rdU32s_putU32s_nil {l : List Nat} (h : ∀ x ∈ l, x < 4294967296) :
    rdU32s l.length (putU32s l) = some (l, []) := by
  simpa using rdU32s_putU32s h []

theorem rdAnims_putAnims_nil {l : List (Nat × Nat)}
    (h : ∀ a ∈ l, a.1 < 4294967296 ∧ a.2 < 4294967296) :
    rdAnims l.length (putAnims l) = some (l, []) := by
  simpa using rdAnims_putAnims h []

theorem rdLayer_put_nil (l : mss_window_layer) :
    rdLayer (putU32 l.code) = some (l, []) := by
  simpa using rdLayer_put l []

theorem rdOrder_put_nil (o : mss_window_order) :
    rdOrder (putI32 o.code) = some (o, []) := by
  simpa using rdOrder_put o []

@[simp] theorem putU32_length (n : Nat) : (putU32 n).length = 4 := rfl

@[simp] theorem putU64_length (n : Nat) : (putU64 n).length = 8 := rfl

@[simp] theorem putI32_length (i : Int) : (putI32 i).length = 4 := rfl

@[simp] theorem putBool_length (b : Bool) : (putBool b).length = 1 := by
  cases b <;> rfl

@[simp] theorem putU32s_length (l : List Nat) :
    (putU32s l).length = 4 * l.length := by
  induction l with
  | nil => rfl
  | cons x xs ih => simp [putU32s, ih]; omega

@[simp] theorem putAnims_length (l : List (Nat × Nat)) :
    (putAnims l).length = 8 * l.length := by
  induction l with
  | nil => rfl
  | cons a xs ih => obtain ⟨w, p⟩ := a; simp [putAnims, ih]; omega

theorem payload_length_lt (c : Command) (h : c.wf) :
    c.payload.length < 4294967296 := by
  cases c <;>
    simp only [Command.payload, List.length_append, putU32_length, putU64_length,
      putI32_length, putBool_length, putU32s_length, putAnims_length,
      List.length_nil, List.length_cons] <;>
    first
      | omega
      | (have hl := h.1; simp only [MSS_MAX_LIST] at hl; omega)

theorem decodeCommand_frame (t : Nat) (p : List Nat)
    (hp : p.length < 4294967296) :
    decodeCommand (t :: putU32 p.length ++ p) = decodeBody t p := by
  simp [decodeCommand, rdU32_putU32_of_lt hp]

theorem decodeBody_payload (c : Command) (h : c.wf) :
    decodeBody c.tag c.payload = some c := by
  cases c with
  | spaceCreate sid =>
      simp [decodeBody, Command.tag, Command.payload, rdU64_putU64_nil h, endOf]
  | spaceDestroy sid =>
      simp [decodeBody, Command.tag, Command.payload, rdU64_putU64_nil h, endOf]
  | spaceFocus sid =>
      simp [decodeBody, Command.tag, Command.payload, rdU64_putU64_nil h, endOf]
  | spaceMove src dst prev focus =>
      obtain ⟨h1, h2, h3⟩ := h
      simp [decodeBody, Command.tag, Command.payload, List.append_assoc,
        rdU64_putU64_of_lt h1, rdU64_putU64_of_lt h2, rdU64_putU64_of_lt h3,
        rdBool_putBool_nil, endOf]
  | windowMove wid x y =>
      obtain ⟨h1, h2, h3, h4, h5⟩ := h
      simp [decodeBody, Command.tag, Command.payload, List.append_assoc,
        rdU32_putU32_of_lt h1, rdI32_putI32_of_bounds h2 h3,
        rdI32_putI32_nil h4 h5, endOf]
  | windowSetOpacity wid opacity =>
      obtain ⟨h1, h2⟩ := h
      simp [decodeBody, Command.tag, Command.payload, List.append_assoc,
        rdU32_putU32_of_lt h1, rdU32_putU32_nil h2, endOf]
  | windowFadeOpacity wid opacity duration =>
      obtain ⟨h1, h2, h3⟩ := h
      simp [decodeBody, Command.tag, Command.payload, List.append_assoc,
        rdU32_putU32_of_lt h1, rdU32_putU32_of_lt h2, rdU32_putU32_nil h3, endOf]
  | windowSetLayer wid layer =>
      simp [decodeBody, Command.tag, Command.payload, List.append_assoc,
        rdU32_putU32_of_lt h, rdLayer_put_nil, endOf]
  | windowSetSticky wid sticky =>
      simp [decodeBody, Command.tag, Command.payload, List.append_assoc,
        rdU32_putU32_of_lt h, rdBool_putBool_nil, endOf]
  | windowSetShadow wid shadow =>
      simp [decodeBody, Command.tag, Command.payload, List.append_assoc,
        rdU32_putU32_of_lt h, rdBool_putBool_nil, endOf]
  | windowFocus wid =>
      simp [decodeBody, Command.tag, Command.payload, rdU32_putU32_nil h, endOf]
  | windowScale wid x y w hh =>
      obtain ⟨h1, h2, h3, h4, h5⟩ := h
      simp [decodeBody, Command.tag, Command.payload, List.append_assoc,
        rdU32_putU32_of_lt h1, rdU32_putU32_of_lt h2, rdU32_putU32_of_lt h3,
        rdU32_putU32_of_lt h4, rdU32_putU32_nil h5, endOf]
  | windowOrder wid ord rel =>
      obtain ⟨h1, h2⟩ := h
      simp [decodeBody, Command.tag, Command.payload, List.append_assoc,
        rdU32_putU32_of_lt h1, rdOrder_put, rdU32_putU32_nil h2, endOf]
  | windowOrderIn l =>
      obtain ⟨h1, h2⟩ := h
      have hc : l.length < 4294967296 := by
        simp only [MSS_MAX_LIST] at h1; omega
      simp [decodeBody, Command.tag, Command.payload, List.append_assoc,
        rdU32_putU32_of_lt hc, h1, rdU32s_putU32s_nil h2, endOf]
  | windowMoveToSpace wid sid =>
      obtain ⟨h1, h2⟩ := h
      simp [decodeBody, Command.tag, Command.payload, List.append_assoc,
        rdU32_putU32_of_lt h1, rdU64_putU64_nil h2, endOf]
  | windowListMoveToSpace l sid =>
      obtain ⟨h1, h2, h3⟩ := h
      have hc : l.length < 4294967296 := by
        simp only [MSS_MAX_LIST] at h1; omega
      simp [decodeBody, Command.tag, Command.payload, List.append_assoc,
        rdU32_putU32_of_lt hc, h1, rdU32s_putU32s h2, rdU64_putU64_nil h3, endOf]
  | windowResize wid w hh =>
      obtain ⟨h1, h2, h3, h4, h5⟩ := h
      simp [decodeBody, Command.tag, Command.payload, List.append_assoc,
        rdU32_putU32_of_lt h1, rdI32_putI32_of_bounds h2 h3,
        rdI32_putI32_nil h4 h5, endOf]
  | windowSetFrame wid x y w hh =>
      obtain ⟨h1, h2, h3, h4, h5, h6, h7, h8, h9⟩ := h
      simp [decodeBody, Command.tag, Command.payload, List.append_assoc,
        rdU32_putU32_of_lt h1, rdI32_putI32_of_bounds h2 h3,
        rdI32_putI32_of_bounds h4 h5, rdI32_putI32_of_bounds h6 h7,
        rdI32_putI32_nil h8 h9, endOf]
  | windowMinimize wid =>
      simp [decodeBody, Command.tag, Command.payload, rdU32_putU32_nil h, endOf]
  | windowUnminimize wid =>
      simp [decodeBody, Command.tag, Command.payload, rdU32_putU32_nil h, endOf]
  | windowIsMinimized wid =>
      simp [decodeBody, Command.tag, Command.payload, rdU32_putU32_nil h, endOf]
  | windowGetOpacity wid =>
      simp [decodeBody, Command.tag, Command.payload, rdU32_putU32_nil h, endOf]
  | windowGetFrame wid =>
      simp [decodeBody, Command.tag, Command.payload, rdU32_putU32_nil h, endOf]
  | windowIsSticky wid =>
      simp [decodeBody, Command.tag, Command.payload, rdU32_putU32_nil h, endOf]
  | windowGetLayer wid =>
      simp [decodeBody, Command.tag, Command.payload, rdU32_putU32_nil h, endOf]
  | windowSwapProxyIn anims =>
      obtain ⟨h1, h2⟩ := h
      have hc : anims.length < 4294967296 := by
        simp only [MSS_MAX_LIST] at h1; omega
      simp [decodeBody, Command.tag, Command.payload, List.append_assoc,
        rdU32_putU32_of_lt hc, h1, rdAnims_putAnims_nil h2, endOf]
  | windowSwapProxyOut anims =>
      obtain ⟨h1, h2⟩ := h
      have hc : anims.length < 4294967296 := by
        simp only [MSS_MAX_LIST] at h1; omega
      simp [decodeBody, Command.tag, Command.payload, List.append_assoc,
        rdU32_putU32_of_lt hc, h1, rdAnims_putAnims_nil h2, endOf]
  | displayGetCount =>
      simp [decodeBody, Command.tag, Command.payload, endOf]
  | displayGetList =>
      simp [decodeBody, Command.tag, Command.payload, endOf]

/-- C2: for every Command kind, with every field inside its valid domain,
decode is a left inverse of encode: decoding the encoded frame reconstructs
the Command exactly. -/
theorem decode_encode_roundtrip (c : Command) (h : c.wf) :
    decodeCommand (encodeCommand c) = some c := by
  have hp := payload_length_lt c h
  calc decodeCommand (encodeCommand c)
      = decodeBody c.tag c.payload := decodeCommand_frame c.tag c.payload hp
    _ = some c := decodeBody_payload c h

/-- Witness for C2 at a concrete Command exercising signed fields. -/
theorem decode_encode_roundtrip_witness :
    Command.wf (.windowSetFrame 7 (-1) 2 800 600) ∧
      decodeCommand (encodeCommand (.windowSetFrame 7 (-1) 2 800 600)) =
        some (.windowSetFrame 7 (-1) 2 800 600) :=
  ⟨by decide, decode_encode_roundtrip _ (by decide)⟩

theorem rdU32_eq_none_of_short {bs : List Nat} (h : bs.length < 4) :
    rdU32 bs = none := by
  rcases bs with _ | ⟨a, _ | ⟨b, _ | ⟨c, _ | ⟨d, r⟩⟩⟩⟩
  · rfl
  · rfl
  · rfl
  · rfl
  · simp at h; omega

theorem decodeCommand_take_frame (t : Nat) (p : List Nat)
    (hp : p.length < 4294967296) (k : Nat) (hk : k < 5 + p.length) :
    decodeCommand ((t :: (putU32 p.length ++ p)).take k) = none := by
  match k with
  | 0 => rfl
  | j + 1 =>
    show decodeCommand (List.take (j + 1) (t :: (putU32 p.length ++ p))) = none
    rw [List.take_succ_cons]
    by_cases hj : j < 4
    · have hshort : ((putU32 p.length ++ p).take j).length < 4 := by
        simp only [List.length_take, List.length_append, putU32_length]
        omega
      simp [decodeCommand, rdU32_eq_none_of_short hshort]
    · have hj4 : 4 ≤ j := le_of_not_lt hj
      have hjlt : j - 4 < p.length := by omega
      have htake : (putU32 p.length ++ p).take j =
          putU32 p.length ++ p.take (j - 4) := by
        rw [List.take_append_eq_append_take]
        congr 1
        exact List.take_of_length_le (by simp; omega)
      rw [htake]
      have hlen : (p.take (j - 4)).length = j - 4 := by
        simp only [List.length_take]; omega
      simp [decodeCommand, rdU32_putU32_of_lt hp, hlen]
      omega

/-- C6: truncating an encoded frame at any byte boundary before decode yields
`PROTOCOL_CORRUPT` (`none`); `decodeCommand` is total on arbitrary byte
sequences by construction, so a truncated frame can never produce a silently
wrong value. -/
theorem encode_truncation (c : Command) (h : c.wf) (k : Nat)
    (hk : k < (encodeCommand c).length) :
    decodeCommand ((encodeCommand c).take k) = none := by
  have hp := payload_length_lt c h
  have hlen : (encodeCommand c).length = 5 + c.payload.length := by
    simp [encodeCommand]; omega
  exact decodeCommand_take_frame c.tag c.payload hp k (by omega)

/-- Witness for C6: byte 7 of an 13-byte encoded frame. -/
theorem encode_truncation_witness :
    Command.wf (.spaceCreate 81985529216486895) ∧
      7 < (encodeCommand (.spaceCreate 81985529216486895)).length ∧
      decodeCommand ((encodeCommand (.spaceCreate 81985529216486895)).take 7) =
        none :=
  ⟨by decide, by decide,
    encode_truncation (.spaceCreate 81985529216486895) (by decide) 7 (by decide)⟩

/-! ### Session and Command facade

Modelled from the spec: `client.m` is absent from `src/`, so the Session
state machine (spec sections 3, 4.2-4.4, 7) is embedded as explicit state
passing.  A Context's session state is `fresh` (created, capabilities
unknown), `notLoaded` (connect attempted and refused: the extension is
presumed not running) or `ready caps version` (handshake completed).  The
remote side of one `call` is an oracle (`RemoteBehavior`), and each
operation reports the number of bytes exchanged with the Transport so that
"no Transport I/O" obligations are statable. -/

/-- Response payload: one shape per originating Command kind (spec sect. 3). -/
inductive Payload where
  | unit
  | float (bits : Nat)
  | boolean (b : Bool)
  | frame (x y w h : Int)
  | layer (l : mss_window_layer)
  | count (n : Nat)
  | idList (ids : List Nat)
  deriving DecidableEq, Repr

/-- Shape of a response payload. -/
inductive Shape where
  | unit
  | float
  | boolean
  | frame
  | layer
  | count
  | idList
  deriving DecidableEq, Repr

def Payload.shape : Payload → Shape
  | .unit => .unit
  | .float _ => .float
  | .boolean _ => .boolean
  | .frame _ _ _ _ => .frame
  | .layer _ => .layer
  | .count _ => .count
  | .idList _ => .idList

/-- Response shape expected for each Command (request/response shapes are
paired 1:1, spec section 3). -/
def expectedShape : Command → Shape
  | .windowIsMinimized _ => .boolean
  | .windowGetOpacity _ => .float
  | .windowGetFrame _ => .frame
  | .windowIsSticky _ => .boolean
  | .windowGetLayer _ => .layer
  | .displayGetCount => .count
  | .displayGetList => .idList
  | _ => .unit

/-- Wire size of an encoded response payload. -/
def Payload.wireLength : Payload → Nat
  | .unit => 0
  | .float _ => 4
  | .boolean _ => 1
  | .frame _ _ _ _ => 16
  | .layer _ => 4
  | .count _ => 4
  | .idList ids => 4 + 4 * ids.length

/-- Modelled from the spec: capability bit required by each Command kind.
The spec (section 3) names the capability families (dock-spaces, DPPM,
add-space, remove-space, move-space, set-window, animation-timing) without
giving the exact table, so operation kinds are mapped to the family whose
name matches them. -/
def requiredCap : Command → Nat
  | .spaceCreate _ => MSS_CAP_ADD_SPACE
  | .spaceDestroy _ => MSS_CAP_REM_SPACE
  | .spaceFocus _ => MSS_CAP_DOCK_SPACES
  | .spaceMove _ _ _ _ => MSS_CAP_MOV_SPACE
  | .windowFadeOpacity _ _ _ => MSS_CAP_ANIM_TIME
  | .displayGetCount => MSS_CAP_DPPM
  | .displayGetList => MSS_CAP_DPPM
  | _ => MSS_CAP_SET_WINDOW

/-- Session state of a Context: fully closed (`fresh`, `notLoaded`) or fully
connected with handshake completed (`ready`); no partial state exists
(spec section 3 invariant). -/
inductive SessState where
  | fresh
  | notLoaded
  | ready (capabilities : Nat) (version : String)
  deriving DecidableEq, Repr

/-- The opaque `mss_context` handle (mss_types.h line 54): socket path and
session state with cached handshake results. -/
structure mss_context where
  socketPath : String
  state : SessState
  deriving DecidableEq, Repr

/-- `mss_create` (mss.h line 40): resolve the socket path (default derived
from the user name) and start with no connection. -/
def mss_create (socket_path : Option String) (username : String) : mss_context :=
  ⟨socket_path.getD ("/tmp/mss_" ++ username ++ ".socket"), .fresh⟩

/-- Behavior of the remote extension during one `call` round trip. -/
inductive RemoteBehavior where
  | transportFail
  | corruptReply
  | statusFail
  | statusOk (p : Payload)
  deriving DecidableEq, Repr

/-- Behavior of the remote extension during connect/handshake. -/
structure Server where
  connects : Bool
  capabilities : Nat
  version : String
  deriving DecidableEq, Repr

deriving instance DecidableEq for Except

/-- Result of one Session `call`: outcome, successor session state, and the
number of bytes exchanged with the Transport. -/
structure CallResult where
  result : Except mss_error Payload
  state : SessState
  ioBytes : Nat
  deriving DecidableEq, Repr

/-- Modelled from the spec: `Session.call` (spec section 4.3).  Capability
gating precedes all Transport I/O: a capability-gated Command issued before
handshake, or requiring a bit that handshake reported absent, fails with
`MSS_ERROR_OPERATION` and zero bytes on the Transport; after a failed
connect every call fails with `MSS_ERROR_NOT_LOADED` (spec section 8,
scenario B).  On the I/O path the encoded Command frame is sent, then a
5-byte response header and the response payload are received; a transport
drop or a corrupt reply surfaces as `MSS_ERROR_CONNECTION` and closes the
Context (spec sections 5, 7); a remote failure status is
`MSS_ERROR_OPERATION` and leaves the connection usable. -/
def sessionCall (st : SessState) (cmd : Command) (remote : RemoteBehavior) :
    CallResult :=
  match st with
  | .fresh => ⟨.error .MSS_ERROR_OPERATION, .fresh, 0⟩
  | .notLoaded => ⟨.error .MSS_ERROR_NOT_LOADED, .notLoaded, 0⟩
  | .ready caps ver =>
    if caps &&& requiredCap cmd = requiredCap cmd then
      let sent := (encodeCommand cmd).length
      match remote with
      | .transportFail => ⟨.error .MSS_ERROR_CONNECTION, .fresh, sent⟩
      | .corruptReply => ⟨.error .MSS_ERROR_CONNECTION, .fresh, sent + 5⟩
      | .statusFail => ⟨.error .MSS_ERROR_OPERATION, .ready caps ver, sent + 5⟩
      | .statusOk p =>
        if p.shape = expectedShape cmd then
          ⟨.ok p, .ready caps ver, sent + 5 + p.wireLength⟩
        else ⟨.error .MSS_ERROR_CONNECTION, .fresh, sent + 5 + p.wireLength⟩
    else ⟨.error .MSS_ERROR_OPERATION, .ready caps ver, 0⟩

/-- Result of `mss_handshake`: status, capability/version outputs (written
only on success), successor context, Transport byte count. -/
structure HandshakeResult where
  status : mss_error
  capabilities : Option Nat
  version : Option String
  ctx : mss_context
  ioBytes : Nat
  deriving DecidableEq, Repr

/-- Modelled from the spec: `mss_handshake` (mss.h line 65, spec section
4.3).  On an already-handshaken Context it is a no-op returning the cached
capability bitmask and version with no protocol exchange; otherwise it
connects and performs the identification exchange (16 bytes in this model),
and a refused connect maps to `MSS_ERROR_NOT_LOADED` (spec section 4.2). -/
def mss_handshake (ctx : mss_context) (srv : Server) : HandshakeResult :=
  match ctx.state with
  | .ready caps ver => ⟨.MSS_SUCCESS, some caps, some ver, ctx, 0⟩
  | _ =>
    if srv.connects then
      ⟨.MSS_SUCCESS, some srv.capabilities, some srv.version,
        ⟨ctx.socketPath, .ready srv.capabilities srv.version⟩, 16⟩
    else
      ⟨.MSS_ERROR_NOT_LOADED, none, none, ⟨ctx.socketPath, .notLoaded⟩, 0⟩

/-- Collapse a call outcome to the boolean contract of the facade
(spec section 4.4): true only when the response status is success. -/
def boolOf : Except mss_error Payload → Bool
  | .ok _ => true
  | .error _ => false

/-- Status view of a call outcome, for status-returning operations. -/
def statusOf : Except mss_error Payload → mss_error
  | .ok _ => .MSS_SUCCESS
  | .error e => e

/-- Result of a boolean-returning facade operation. -/
structure BoolCallResult where
  ok : Bool
  ctx : mss_context
  ioBytes : Nat
  deriving DecidableEq, Repr

/-- Result of a query operation with one output location of type `α`; `out`
holds the output location's value after the call. -/
structure QueryResult (α : Type) where
  ok : Bool
  ctx : mss_context
  ioBytes : Nat
  out : α
  deriving DecidableEq, Repr

/-- Modelled from the spec: the generic boolean facade wrapper
(spec section 4.4): build the Command, invoke `Session.call`, collapse all
failure kinds to `false`. -/
def facadeBool (ctx : mss_context) (cmd : Command) (remote : RemoteBehavior) :
    BoolCallResult :=
  match sessionCall ctx.state cmd remote with
  | ⟨r, st, n⟩ => ⟨boolOf r, ⟨ctx.socketPath, st⟩, n⟩

/-- Exact rational value of an IEEE-754 binary32 bit pattern (sign, 8-bit
exponent, 23-bit fraction); `none` for infinities and NaNs (exponent 255).
Used to state the facade's range validation of float arguments exactly. -/
def f32val (bits : Nat) : Option ℚ :=
  let s := bits / 2147483648 % 2
  let e := bits / 8388608 % 256
  let f := bits % 8388608
  if e = 255 then none
  else
    let mag : ℚ :=
      if e = 0 then mkRat f (2 ^ 149)
      else mkRat ((8388608 + f) * 2 ^ e) (2 ^ 150)
    some (if s = 1 then -mag else mag)

/-- Binary32 pattern of 0.0f. -/
def f32_zero : Nat := 0x00000000

/-- Binary32 pattern of 1.0f. -/
def f32_one : Nat := 0x3F800000

/-- Binary32 pattern of 1.5f. -/
def f32_one_half : Nat := 0x3FC00000

/-- Facade validation of an opacity argument: its float value must lie in
[0.0, 1.0] (spec section 4.4); NaN and infinities are rejected. -/
def opacityValid (bits : Nat) : Bool :=
  match f32val bits with
  | some q => decide (0 ≤ q ∧ q ≤ 1)
  | none => false

/-- Facade validation of a C `int` list count against the codec bound
(spec section 4.4: counts must be non-negative and within the codec's
bound). -/
def countValid (count : Int) : Bool :=
  decide (0 ≤ count ∧ count ≤ (MSS_MAX_LIST : Int))

/-! Named facade operations, one per header declaration of `mss.h`
(boolean-returning operations collapse all failure kinds to false;
argument validation precedes any Transport I/O). -/

def mss_space_create (ctx : mss_context) (sid : Nat) (remote : RemoteBehavior) :
    BoolCallResult :=
  facadeBool ctx (.spaceCreate sid) remote

def mss_space_destroy (ctx : mss_context) (sid : Nat)
    (remote : RemoteBehavior) : BoolCallResult :=
  facadeBool ctx (.spaceDestroy sid) remote

def mss_space_focus (ctx : mss_context) (sid : Nat) (remote : RemoteBehavior) :
    BoolCallResult :=
  facadeBool ctx (.spaceFocus sid) remote

def mss_space_move (ctx : mss_context) (src_sid dst_sid src_prev_sid : Nat)
    (focus : Bool) (remote : RemoteBehavior) : BoolCallResult :=
  facadeBool ctx (.spaceMove src_sid dst_sid src_prev_sid focus) remote

def mss_window_move (ctx : mss_context) (wid : Nat) (x y : Int)
    (remote : RemoteBehavior) : BoolCallResult :=
  facadeBool ctx (.windowMove wid x y) remote

/-- `mss_window_set_opacity` (mss.h line 176) at status granularity:
opacity outside [0.0, 1.0] is `MSS_ERROR_INVALID_ARG` with no Transport
contact (spec sections 4.4, 8). -/
def mss_window_set_opacity_status (ctx : mss_context) (wid opacity : Nat)
    (remote : RemoteBehavior) : CallResult :=
  if opacityValid opacity then
    sessionCall ctx.state (.windowSetOpacity wid opacity) remote
  else ⟨.error .MSS_ERROR_INVALID_ARG, ctx.state, 0⟩

def mss_window_set_opacity (ctx : mss_context) (wid opacity : Nat)
    (remote : RemoteBehavior) : BoolCallResult :=
  match mss_window_set_opacity_status ctx wid opacity remote with
  | ⟨r, st, n⟩ => ⟨boolOf r, ⟨ctx.socketPath, st⟩, n⟩

def mss_window_fade_opacity (ctx : mss_context) (wid opacity duration : Nat)
    (remote : RemoteBehavior) : BoolCallResult :=
  if opacityValid opacity then
    facadeBool ctx (.windowFadeOpacity wid opacity duration) remote
  else ⟨false, ctx, 0⟩

def mss_window_set_layer (ctx : mss_context) (wid : Nat)
    (layer : mss_window_layer) (remote : RemoteBehavior) : BoolCallResult :=
  facadeBool ctx (.windowSetLayer wid layer) remote

def mss_window_set_sticky (ctx : mss_context) (wid : Nat) (sticky : Bool)
    (remote : RemoteBehavior) : BoolCallResult :=
  facadeBool ctx (.windowSetSticky wid sticky) remote

def mss_window_set_shadow (ctx : mss_context) (wid : Nat) (shadow : Bool)
    (remote : RemoteBehavior) : BoolCallResult :=
  facadeBool ctx (.windowSetShadow wid shadow) remote

def mss_window_focus (ctx : mss_context) (wid : Nat)
    (remote : RemoteBehavior) : BoolCallResult :=
  facadeBool ctx (.windowFocus wid) remote

def mss_window_scale (ctx : mss_context) (wid x y w h : Nat)
    (remote : RemoteBehavior) : BoolCallResult :=
  facadeBool ctx (.windowScale wid x y w h) remote

/-- `mss_window_order` (mss.h line 253); suffixed `_op` here because the
header's `enum mss_window_order` already takes that name in this file. -/
def mss_window_order_op (ctx : mss_context) (wid : Nat)
    (ord : mss_window_order) (relative_wid : Nat) (remote : RemoteBehavior) :
    BoolCallResult :=
  facadeBool ctx (.windowOrder wid ord relative_wid) remote

def mss_window_order_in (ctx : mss_context) (window_list : List Nat)
    (count : Int) (remote : RemoteBehavior) : BoolCallResult :=
  if countValid count then
    facadeBool ctx (.windowOrderIn (window_list.take count.toNat)) remote
  else ⟨false, ctx, 0⟩

def mss_window_move_to_space (ctx : mss_context) (wid sid : Nat)
    (remote : RemoteBehavior) : BoolCallResult :=
  facadeBool ctx (.windowMoveToSpace wid sid) remote

def mss_window_list_move_to_space (ctx : mss_context)
    (window_list : List Nat) (count : Int) (sid : Nat)
    (remote : RemoteBehavior) : BoolCallResult :=
  if countValid count then
    facadeBool ctx (.windowListMoveToSpace (window_list.take count.toNat) sid)
      remote
  else ⟨false, ctx, 0⟩

def mss_window_resize (ctx : mss_context) (wid : Nat) (width height : Int)
    (remote : RemoteBehavior) : BoolCallResult :=
  facadeBool ctx (.windowResize wid width height) remote

def mss_window_set_frame (ctx : mss_context) (wid : Nat)
    (x y width height : Int) (remote : RemoteBehavior) : BoolCallResult :=
  facadeBool ctx (.windowSetFrame wid x y width height) remote

def mss_window_minimize (ctx : mss_context) (wid : Nat)
    (remote : RemoteBehavior) : BoolCallResult :=
  facadeBool ctx (.windowMinimize wid) remote

def mss_window_unminimize (ctx : mss_context) (wid : Nat)
    (remote : RemoteBehavior) : BoolCallResult :=
  facadeBool ctx (.windowUnminimize wid) remote

def mss_window_swap_proxy_in (ctx : mss_context)
    (animations : List (Nat × Nat)) (count : Int) (remote : RemoteBehavior) :
    BoolCallResult :=
  if countValid count then
    facadeBool ctx (.windowSwapProxyIn (animations.take count.toNat)) remote
  else ⟨false, ctx, 0⟩

def mss_window_swap_proxy_out (ctx : mss_context)
    (animations : List (Nat × Nat)) (count : Int) (remote : RemoteBehavior) :
    BoolCallResult :=
  if countValid count then
    facadeBool ctx (.windowSwapProxyOut (animations.take count.toNat)) remote
  else ⟨false, ctx, 0⟩

/-! Query operations: the payload is decoded into the caller-supplied
output location only on success; on failure the location keeps its prior
value (spec section 4.4).  Each takes the prior value of its output
location and returns the location's value after the call. -/

def mss_window_is_minimized (ctx : mss_context) (wid : Nat) (result : Bool)
    (remote : RemoteBehavior) : QueryResult Bool :=
  match sessionCall ctx.state (.windowIsMinimized wid) remote with
  | ⟨.ok (.boolean b), st, n⟩ => ⟨true, ⟨ctx.socketPath, st⟩, n, b⟩
  | ⟨r, st, n⟩ => ⟨boolOf r, ⟨ctx.socketPath, st⟩, n, result⟩

def mss_window_get_opacity (ctx : mss_context) (wid opacity : Nat)
    (remote : RemoteBehavior) : QueryResult Nat :=
  match sessionCall ctx.state (.windowGetOpacity wid) remote with
  | ⟨.ok (.float bits), st, n⟩ => ⟨true, ⟨ctx.socketPath, st⟩, n, bits⟩
  | ⟨r, st, n⟩ => ⟨boolOf r, ⟨ctx.socketPath, st⟩, n, opacity⟩

def mss_window_get_frame (ctx : mss_context) (wid : Nat)
    (x y width height : Int) (remote : RemoteBehavior) :
    QueryResult (Int × Int × Int × Int) :=
  match sessionCall ctx.state (.windowGetFrame wid) remote with
  | ⟨.ok (.frame fx fy fw fh), st, n⟩ =>
      ⟨true, ⟨ctx.socketPath, st⟩, n, (fx, fy, fw, fh)⟩
  | ⟨r, st, n⟩ => ⟨boolOf r, ⟨ctx.socketPath, st⟩, n, (x, y, width, height)⟩

def mss_window_is_sticky (ctx : mss_context) (wid : Nat) (sticky : Bool)
    (remote : RemoteBehavior) : QueryResult Bool :=
  match sessionCall ctx.state (.windowIsSticky wid) remote with
  | ⟨.ok (.boolean b), st, n⟩ => ⟨true, ⟨ctx.socketPath, st⟩, n, b⟩
  | ⟨r, st, n⟩ => ⟨boolOf r, ⟨ctx.socketPath, st⟩, n, sticky⟩

def mss_window_get_layer (ctx : mss_context) (wid : Nat)
    (layer : mss_window_layer) (remote : RemoteBehavior) :
    QueryResult mss_window_layer :=
  match sessionCall ctx.state (.windowGetLayer wid) remote with
  | ⟨.ok (.layer l), st, n⟩ => ⟨true, ⟨ctx.socketPath, st⟩, n, l⟩
  | ⟨r, st, n⟩ => ⟨boolOf r, ⟨ctx.socketPath, st⟩, n, layer⟩

/-- Result of a status-returning display query. -/
structure StatusQueryResult (α : Type) where
  status : mss_error
  ctx : mss_context
  ioBytes : Nat
  out : α
  deriving DecidableEq, Repr

def mss_display_get_count (ctx : mss_context) (count : Nat)
    (remote : RemoteBehavior) : StatusQueryResult Nat :=
  match sessionCall ctx.state .displayGetCount remote with
  | ⟨.ok (.count n), st, io⟩ => ⟨.MSS_SUCCESS, ⟨ctx.socketPath, st⟩, io, n⟩
  | ⟨r, st, io⟩ => ⟨statusOf r, ⟨ctx.socketPath, st⟩, io, count⟩

/-- Write the first `min max_count N` server-reported ids into the caller
array, leaving every element from that index on (in particular everything
past the first `max_count` elements) unchanged. -/
def writeIds (arr ids : List Nat) (max_count : Nat) : List Nat :=
  ids.take (min max_count ids.length) ++ arr.drop (min max_count ids.length)

def mss_display_get_list (ctx : mss_context) (displays : List Nat)
    (max_count : Nat) (remote : RemoteBehavior) :
    StatusQueryResult (List Nat) :=
  match sessionCall ctx.state .displayGetList remote with
  | ⟨.ok (.idList ids), st, io⟩ =>
      ⟨.MSS_SUCCESS, ⟨ctx.socketPath, st⟩, io, writeIds displays ids max_count⟩
  | ⟨r, st, io⟩ => ⟨statusOf r, ⟨ctx.socketPath, st⟩, io, displays⟩

/-- One public operation invocation, for reachability of Context states. -/
inductive OpInvocation where
  | handshake (srv : Server)
  | call (cmd : Command) (remote : RemoteBehavior)

/-- Successor Context of one public operation. -/
def applyOp (ctx : mss_context) : OpInvocation → mss_context
  | .handshake srv => (mss_handshake ctx srv).ctx
  | .call cmd remote =>
      ⟨ctx.socketPath, (sessionCall ctx.state cmd remote).state⟩

/-- Contexts reachable from `mss_create` by public operations. -/
inductive Reachable : mss_context → Prop where
  | init (socket_path : Option String) (username : String) :
      Reachable (mss_create socket_path username)
  | step {ctx : mss_context} (op : OpInvocation) :
      Reachable ctx → Reachable (applyOp ctx op)

/-! ### Theorems about the session and facade -/

/-- C1: a Command requiring a capability bit that handshake reported unset,
or issued while no handshake has completed (state `fresh`), fails with
`MSS_ERROR_OPERATION`, exchanges zero bytes with the Transport, and leaves
the session state unchanged. -/
theorem capability_gate_no_io (ctx : mss_context) (cmd : Command)
    (remote : RemoteBehavior)
    (h : ctx.state = .fresh ∨
      ∃ caps ver, ctx.state = .ready caps ver ∧
        caps &&& requiredCap cmd ≠ requiredCap cmd) :
    (sessionCall ctx.state cmd remote).result = .error .MSS_ERROR_OPERATION ∧
    (sessionCall ctx.state cmd remote).ioBytes = 0 ∧
    (sessionCall ctx.state cmd remote).state = ctx.state := by
  rcases h with h | ⟨caps, ver, h, hcap⟩
  · rw [h]; simp [sessionCall]
  · rw [h]; simp [sessionCall, hcap]

/-- Witness for C1: capabilities 0x5F (all but `MSS_CAP_SET_WINDOW`) reject
`mss_window_move`'s Command with `MSS_ERROR_OPERATION` and zero I/O. -/
theorem capability_gate_no_io_witness :
    (sessionCall (mss_context.mk "p" (.ready 95 "1.2.0")).state
        (.windowMove 7 1 2) .statusFail).result =
      .error .MSS_ERROR_OPERATION ∧
    (sessionCall (mss_context.mk "p" (.ready 95 "1.2.0")).state
        (.windowMove 7 1 2) .statusFail).ioBytes = 0 ∧
    (sessionCall (mss_context.mk "p" (.ready 95 "1.2.0")).state
          (.windowMove 7 1 2) .statusFail).state =
      (mss_context.mk "p" (.ready 95 "1.2.0")).state :=
  capability_gate_no_io ⟨"p", .ready 95 "1.2.0"⟩ (.windowMove 7 1 2)
    .statusFail (Or.inr ⟨95, "1.2.0", rfl, by decide⟩)

/-- C3: every reachable Context is fully closed (`fresh` or `notLoaded`) or
fully connected with capabilities and version known (`ready`); while
capabilities are unknown every call fails immediately with no Transport I/O
and no state change, and after a failed connect every call returns
`MSS_ERROR_NOT_LOADED`. -/
theorem context_fully_connected_or_closed (ctx : mss_context)
    (_hr : Reachable ctx) :
    (ctx.state = .fresh ∨ ctx.state = .notLoaded ∨
      ∃ caps ver, ctx.state = .ready caps ver) ∧
    (∀ (cmd : Command) (remote : RemoteBehavior),
      ctx.state = .fresh ∨ ctx.state = .notLoaded →
      boolOf (sessionCall ctx.state cmd remote).result = false ∧
      (sessionCall ctx.state cmd remote).state = ctx.state ∧
      (sessionCall ctx.state cmd remote).ioBytes = 0) ∧
    (∀ (cmd : Command) (remote : RemoteBehavior),
      ctx.state = .notLoaded →
      (sessionCall ctx.state cmd remote).result =
        .error .MSS_ERROR_NOT_LOADED) := by
  refine ⟨?_, ?_, ?_⟩
  · rcases h : ctx.state with _ | _ | ⟨caps, ver⟩
    · exact Or.inl rfl
    · exact Or.inr (Or.inl rfl)
    · exact Or.inr (Or.inr ⟨caps, ver, rfl⟩)
  · intro cmd remote h
    rcases h with h | h <;> rw [h] <;> simp [sessionCall, boolOf]
  · intro cmd remote h
    rw [h]; rfl

/-- Witness for C3: after `mss_create` followed by a refused connect
(scenario B), a call returns `MSS_ERROR_NOT_LOADED`. -/
theorem context_fully_connected_or_closed_witness :
    (sessionCall (applyOp (mss_create none "user")
          (.handshake ⟨false, 0, "0.0.0"⟩)).state (.windowFocus 3)
        .statusFail).result = .error .MSS_ERROR_NOT_LOADED :=
  (context_fully_connected_or_closed _
      (Reachable.step _ (Reachable.init none "user"))).2.2 (.windowFocus 3)
    .statusFail rfl

/-- C8: `mss_handshake` is idempotent and performed at most once: invoking
it on a Context whose handshake already succeeded performs no protocol
exchange (zero Transport bytes), does not change the Context, and returns
the cached capability bitmask and version, equal to the first invocation's
results — whatever the server would now answer. -/
theorem handshake_at_most_once (ctx : mss_context) (srv srv2 : Server)
    (h : (mss_handshake ctx srv).status = .MSS_SUCCESS) :
    mss_handshake (mss_handshake ctx srv).ctx srv2 =
      ⟨.MSS_SUCCESS, (mss_handshake ctx srv).capabilities,
        (mss_handshake ctx srv).version, (mss_handshake ctx srv).ctx, 0⟩ := by
  rcases hs : ctx.state with _ | _ | ⟨caps, ver⟩
  · by_cases hc : srv.connects
    · simp [mss_handshake, hs, hc]
    · rw [mss_handshake, hs] at h; simp [hc] at h
  · by_cases hc : srv.connects
    · simp [mss_handshake, hs, hc]
    · rw [mss_handshake, hs] at h; simp [hc] at h
  · simp [mss_handshake, hs]

/-- Witness for C8: a fresh Context handshakes against capabilities 0x7F /
version "1.2.0"; the second handshake against a different server answer is a
no-op returning the cached results with zero bytes exchanged. -/
theorem handshake_at_most_once_witness :
    (mss_handshake ⟨"p", .fresh⟩ ⟨true, 127, "1.2.0"⟩).status =
        .MSS_SUCCESS ∧
      mss_handshake (mss_handshake ⟨"p", .fresh⟩ ⟨true, 127, "1.2.0"⟩).ctx
          ⟨true, 1, "9.9.9"⟩ =
        ⟨.MSS_SUCCESS,
          (mss_handshake ⟨"p", .fresh⟩ ⟨true, 127, "1.2.0"⟩).capabilities,
          (mss_handshake ⟨"p", .fresh⟩ ⟨true, 127, "1.2.0"⟩).version,
          (mss_handshake ⟨"p", .fresh⟩ ⟨true, 127, "1.2.0"⟩).ctx, 0⟩ :=
  ⟨rfl, handshake_at_most_once ⟨"p", .fresh⟩ ⟨true, 127, "1.2.0"⟩
    ⟨true, 1, "9.9.9"⟩ rfl⟩

set_option maxRecDepth 10000 in
/-- C4: `mss_window_set_opacity` with an opacity whose float value lies
outside [0.0, 1.0] fails with `MSS_ERROR_INVALID_ARG`, performs no Transport
I/O and leaves the session state unchanged, for every Context and window id;
the boundary patterns 0.0f and 1.0f both pass argument validation. -/
theorem set_opacity_invalid_arg :
    (∀ (ctx : mss_context) (wid bits : Nat) (remote : RemoteBehavior) (q : ℚ),
        f32val bits = some q → (q < 0 ∨ 1 < q) →
        mss_window_set_opacity_status ctx wid bits remote =
          ⟨.error .MSS_ERROR_INVALID_ARG, ctx.state, 0⟩) ∧
    opacityValid f32_zero = true ∧ opacityValid f32_one = true := by
  refine ⟨?_, by decide, by decide⟩
  intro ctx wid bits remote q hf hq
  have hov : opacityValid bits = false := by
    unfold opacityValid
    rw [hf]
    simp only [decide_eq_false_iff_not, not_and_or, not_le]
    rcases hq with hq | hq
    · exact Or.inl hq
    · exact Or.inr hq
  unfold mss_window_set_opacity_status
  simp [hov]

set_option maxRecDepth 10000 in
/-- Witness for C4: opacity 1.5f (pattern 0x3FC00000) is rejected with
`MSS_ERROR_INVALID_ARG` and zero bytes of Transport I/O. -/
theorem set_opacity_invalid_arg_witness :
    f32val f32_one_half = some (mkRat 3 2) ∧ (1 : ℚ) < mkRat 3 2 ∧
      mss_window_set_opacity_status ⟨"p", .ready 127 "1.2.0"⟩ 7 f32_one_half
          .statusFail =
        ⟨.error .MSS_ERROR_INVALID_ARG, .ready 127 "1.2.0", 0⟩ :=
  ⟨by decide, by decide,
    set_opacity_invalid_arg.1 ⟨"p", .ready 127 "1.2.0"⟩ 7 f32_one_half
      .statusFail (mkRat 3 2) (by decide) (Or.inr (by decide))⟩

/-- C5: every query operation writes its caller-supplied output location
only on success; on any failure the location keeps exactly its prior
value. -/
theorem query_outputs_untouched_on_failure :
    (∀ (ctx : mss_context) (wid opacity : Nat) (remote : RemoteBehavior),
        (mss_window_get_opacity ctx wid opacity remote).ok = false →
        (mss_window_get_opacity ctx wid opacity remote).out = opacity) ∧
    (∀ (ctx : mss_context) (wid : Nat) (x y width height : Int)
        (remote : RemoteBehavior),
        (mss_window_get_frame ctx wid x y width height remote).ok = false →
        (mss_window_get_frame ctx wid x y width height remote).out =
          (x, y, width, height)) ∧
    (∀ (ctx : mss_context) (wid : Nat) (sticky : Bool)
        (remote : RemoteBehavior),
        (mss_window_is_sticky ctx wid sticky remote).ok = false →
        (mss_window_is_sticky ctx wid sticky remote).out = sticky) ∧
    (∀ (ctx : mss_context) (wid : Nat) (layer : mss_window_layer)
        (remote : RemoteBehavior),
        (mss_window_get_layer ctx wid layer remote).ok = false →
        (mss_window_get_layer ctx wid layer remote).out = layer) ∧
    (∀ (ctx : mss_context) (wid : Nat) (result : Bool)
        (remote : RemoteBehavior),
        (mss_window_is_minimized ctx wid result remote).ok = false →
        (mss_window_is_minimized ctx wid result remote).out = result) ∧
    (∀ (ctx : mss_context) (count : Nat) (remote : RemoteBehavior),
        (mss_display_get_count ctx count remote).status ≠ .MSS_SUCCESS →
        (mss_display_get_count ctx count remote).out = count) ∧
    (∀ (ctx : mss_context) (displays : List Nat) (max_count : Nat)
        (remote : RemoteBehavior),
        (mss_display_get_list ctx displays max_count remote).status ≠
            .MSS_SUCCESS →
        (mss_display_get_list ctx displays max_count remote).out =
          displays) := by
  refine ⟨?_, ?_, ?_, ?_, ?_, ?_, ?_⟩
  · intro ctx wid opacity remote
    rcases hsc : sessionCall ctx.state (.windowGetOpacity wid) remote
      with ⟨r, st, n⟩
    rcases r with e | p
    · simp [mss_window_get_opacity, hsc, boolOf]
    · cases p <;> simp [mss_window_get_opacity, hsc, boolOf]
  · intro ctx wid x y width height remote
    rcases hsc : sessionCall ctx.state (.windowGetFrame wid) remote
      with ⟨r, st, n⟩
    rcases r with e | p
    · simp [mss_window_get_frame, hsc, boolOf]
    · cases p <;> simp [mss_window_get_frame, hsc, boolOf]
  · intro ctx wid sticky remote
    rcases hsc : sessionCall ctx.state (.windowIsSticky wid) remote
      with ⟨r, st, n⟩
    rcases r with e | p
    · simp [mss_window_is_sticky, hsc, boolOf]
    · cases p <;> simp [mss_window_is_sticky, hsc, boolOf]
  · intro ctx wid layer remote
    rcases hsc : sessionCall ctx.state (.windowGetLayer wid) remote
      with ⟨r, st, n⟩
    rcases r with e | p
    · simp [mss_window_get_layer, hsc, boolOf]
    · cases p <;> simp [mss_window_get_layer, hsc, boolOf]
  · intro ctx wid result remote
    rcases hsc : sessionCall ctx.state (.windowIsMinimized wid) remote
      with ⟨r, st, n⟩
    rcases r with e | p
    · simp [mss_window_is_minimized, hsc, boolOf]
    · cases p <;> simp [mss_window_is_minimized, hsc, boolOf]
  · intro ctx count remote
    rcases hsc : sessionCall ctx.state .displayGetCount remote with ⟨r, st, n⟩
    rcases r with e | p
    · simp [mss_display_get_count, hsc, statusOf]
    · cases p <;> simp [mss_display_get_count, hsc, statusOf]
  · intro ctx displays max_count remote
    rcases hsc : sessionCall ctx.state .displayGetList remote with ⟨r, st, n⟩
    rcases r with e | p
    · simp [mss_display_get_list, hsc, statusOf]
    · cases p <;> simp [mss_display_get_list, hsc, statusOf]

/-- Witness for C5: a failed `mss_window_get_opacity` on a fresh Context
leaves the output location's prior value 42 in place. -/
theorem query_outputs_untouched_on_failure_witness :
    (mss_window_get_opacity ⟨"p", .fresh⟩ 7 42 .statusFail).out = 42 :=
  query_outputs_untouched_on_failure.1 ⟨"p", .fresh⟩ 7 42 .statusFail rfl

/-- C7: a boolean-returning facade operation returns true exactly when the
remote response status is success (capabilities granted, the remote answered
with a success status, and the payload has the expected shape); every
failure kind collapses to false.  The status-returning display queries
preserve the specific error kind of the session call. -/
theorem bool_result_iff_success :
    (∀ (ctx : mss_context) (cmd : Command) (remote : RemoteBehavior),
        (facadeBool ctx cmd remote).ok = true ↔
          ∃ caps ver p, ctx.state = .ready caps ver ∧
            caps &&& requiredCap cmd = requiredCap cmd ∧
            remote = .statusOk p ∧ p.shape = expectedShape cmd) ∧
    (∀ (ctx : mss_context) (count : Nat) (remote : RemoteBehavior),
        (mss_display_get_count ctx count remote).status =
          statusOf (sessionCall ctx.state .displayGetCount remote).result) ∧
    (∀ (ctx : mss_context) (displays : List Nat) (max_count : Nat)
        (remote : RemoteBehavior),
        (mss_display_get_list ctx displays max_count remote).status =
          statusOf (sessionCall ctx.state .displayGetList remote).result) := by
  refine ⟨?_, ?_, ?_⟩
  · intro ctx cmd remote
    rcases hs : ctx.state with _ | _ | ⟨caps, ver⟩
    · simp [facadeBool, sessionCall, hs, boolOf]
    · simp [facadeBool, sessionCall, hs, boolOf]
    · by_cases hcap : caps &&& requiredCap cmd = requiredCap cmd
      · rcases remote with _ | _ | _ | p
        · simp [facadeBool, sessionCall, hs, hcap, boolOf]
        · simp [facadeBool, sessionCall, hs, hcap, boolOf]
        · simp [facadeBool, sessionCall, hs, hcap, boolOf]
        · by_cases hsh : p.shape = expectedShape cmd
          · simp only [facadeBool, sessionCall, hs, hcap, if_pos, hsh, if_true]
            simp [boolOf, hcap, hsh]
          · simp [facadeBool, sessionCall, hs, hcap, hsh, boolOf]
      · simp [facadeBool, sessionCall, hs, hcap, boolOf]
  · intro ctx count remote
    rcases hsc : sessionCall ctx.state .displayGetCount remote with ⟨r, st, n⟩
    rcases r with e | p
    · simp [mss_display_get_count, hsc, statusOf]
    · cases p <;> simp [mss_display_get_count, hsc, statusOf]
  · intro ctx displays max_count remote
    rcases hsc : sessionCall ctx.state .displayGetList remote with ⟨r, st, n⟩
    rcases r with e | p
    · simp [mss_display_get_list, hsc, statusOf]
    · cases p <;> simp [mss_display_get_list, hsc, statusOf]

/-- Witness for C7: `mss_window_move` (an instance of the boolean facade)
returns true against a success reply and false against a remote failure
status. -/
theorem bool_result_iff_success_witness :
    (mss_window_move ⟨"p", .ready 127 "1.2.0"⟩ 7 10 20
        (.statusOk .unit)).ok = true ∧
      (mss_window_move ⟨"p", .ready 127 "1.2.0"⟩ 7 10 20 .statusFail).ok =
        false :=
  ⟨(bool_result_iff_success.1 ⟨"p", .ready 127 "1.2.0"⟩ (.windowMove 7 10 20)
      (.statusOk .unit)).mpr ⟨127, "1.2.0", .unit, rfl, by decide, rfl, rfl⟩,
    by decide⟩

/-- C9: `mss_display_get_list` against a server reporting `ids` writes
exactly `min max_count ids.length` display ids into the caller's array and
leaves every element from that index on — in particular everything past the
first `max_count` elements — unchanged. -/
theorem display_get_list_min_count (ctx : mss_context)
    (displays ids : List Nat) (max_count caps : Nat) (ver : String)
    (hlen : max_count ≤ displays.length)
    (hst : ctx.state = .ready caps ver)
    (hcap : caps &&& MSS_CAP_DPPM = MSS_CAP_DPPM) :
    (mss_display_get_list ctx displays max_count
        (.statusOk (.idList ids))).status = .MSS_SUCCESS ∧
    (mss_display_get_list ctx displays max_count
        (.statusOk (.idList ids))).out.length = displays.length ∧
    (mss_display_get_list ctx displays max_count
        (.statusOk (.idList ids))).out.take (min max_count ids.length) =
      ids.take (min max_count ids.length) ∧
    (mss_display_get_list ctx displays max_count
        (.statusOk (.idList ids))).out.drop (min max_count ids.length) =
      displays.drop (min max_count ids.length) := by
  have hsc : sessionCall ctx.state .displayGetList (.statusOk (.idList ids)) =
      ⟨.ok (.idList ids), .ready caps ver,
        (encodeCommand .displayGetList).length + 5 +
          (Payload.idList ids).wireLength⟩ := by
    rw [hst]
    simp [sessionCall, requiredCap, hcap, expectedShape, Payload.shape]
  have hm2 : min max_count ids.length ≤ displays.length :=
    le_trans (min_le_left _ _) hlen
  have ha : (ids.take (min max_count ids.length)).length =
      min max_count ids.length := by
    simp only [List.length_take]
    omega
  refine ⟨?_, ?_, ?_, ?_⟩
  · simp [mss_display_get_list, hsc]
  · simp only [mss_display_get_list, hsc, writeIds, List.length_append,
      List.length_take, List.length_drop]
    omega
  · simp only [mss_display_get_list, hsc, writeIds]
    exact List.take_left' ha
  · simp only [mss_display_get_list, hsc, writeIds]
    exact List.drop_left' ha

/-- Witness for C9: `max_count = 2` against a server reporting 5 displays
returns exactly the first 2 ids into a 2-element caller array. -/
theorem display_get_list_min_count_witness :
    (mss_display_get_list ⟨"p", .ready 127 "1.2.0"⟩ [0, 0] 2
        (.statusOk (.idList [10, 20, 30, 40, 50]))).status = .MSS_SUCCESS ∧
    (mss_display_get_list ⟨"p", .ready 127 "1.2.0"⟩ [0, 0] 2
        (.statusOk (.idList [10, 20, 30, 40, 50]))).out.length =
      ([0, 0] : List Nat).length ∧
    (mss_display_get_list ⟨"p", .ready 127 "1.2.0"⟩ [0, 0] 2
        (.statusOk (.idList [10, 20, 30, 40, 50]))).out.take
        (min 2 ([10, 20, 30, 40, 50] : List Nat).length) =
      ([10, 20, 30, 40, 50] : List Nat).take
        (min 2 ([10, 20, 30, 40, 50] : List Nat).length) ∧
    (mss_display_get_list ⟨"p", .ready 127 "1.2.0"⟩ [0, 0] 2
        (.statusOk (.idList [10, 20, 30, 40, 50]))).out.drop
        (min 2 ([10, 20, 30, 40, 50] : List Nat).length) =
      ([0, 0] : List Nat).drop
        (min 2 ([10, 20, 30, 40, 50] : List Nat).length) :=
  display_get_list_min_count ⟨"p", .ready 127 "1.2.0"⟩ [0, 0]
    [10, 20, 30, 40, 50] 2 127 "1.2.0" (by decide) rfl (by decide)

end MSS
